import Mathlib

/-!
Verification of the cat-printer protocol engine (src/printer.go).

The Go source is shallowly embedded: bytes are `Nat` with explicit `% 256`
masking where Go's `byte` arithmetic wraps, byte buffers are `List Nat`,
the notification channel is a FIFO `List (List Nat)`, and each stateful
operation is a pure function from the printer state (plus an environment
describing what the transport delivers) to a result, a new state and the
list of packets written to the control/data channels.  Transport writes are
modelled as succeeding; what arrives on the notify channel during an
await-with-timeout is an `Option (List Nat)` argument (`none` = timeout).
-/

set_option maxHeartbeats 1000000
set_option maxRecDepth 100000

namespace CatPrinterProof

/-- One CRC-8 round (src/printer.go:212-218): if the high bit of the running
register is set, shift left one and XOR the polynomial 0x07, else just shift
left one; Go `byte` arithmetic masks to 8 bits. -/
def crcRound (crc : Nat) : Nat :=
  if crc &&& 0x80 ≠ 0 then ((crc <<< 1) ^^^ 0x07) % 256 else (crc <<< 1) % 256

/-- `n` iterations of `crcRound`, mirroring the `for i := 0; i < 8; i++` loop. -/
def crcRounds : Nat → Nat → Nat
  | 0, c => c
  | n + 1, c => crcRounds n (crcRound c)

/-- Processing of one input byte (src/printer.go:210-219): XOR the byte into
the running register, then eight `crcRound`s. -/
def crcByteStep (crc b : Nat) : Nat := crcRounds 8 ((crc ^^^ b) % 256)

/-- CRC-8 checksum (src/printer.go:202-221, `calculateCRC8`): initial value
0x00, fold `crcByteStep` over the data. -/
def calculateCRC8 (data : List Nat) : Nat := data.foldl crcByteStep 0

/-- A decoded packet: command id plus payload (spec §4.2 `Packet`). -/
structure Packet where
  commandId : Nat
  payload : List Nat
deriving Repr, DecidableEq

/-- Framing errors of the packet decoder (spec §4.2). -/
inductive DecodeError
  | frameTooShort (n : Nat)
  | badPreamble (b0 b1 : Nat)
  | lengthMismatch (got need : Nat)
deriving Repr, DecidableEq

/-- Packet encoder: the wire layout used by every packet built in the source
(src/printer.go:242-251, 393-405, 493-502, 544-553): preamble 0x22 0x21,
command id, reserved 0x00, little-endian 16-bit payload length, payload,
CRC-8 over the payload only, footer 0xFF.  Byte positions are masked to
8 bits as Go's `byte` conversions do. -/
def encodePacket (commandId : Nat) (payload : List Nat) : List Nat :=
  [0x22, 0x21, commandId % 256, 0x00, payload.length % 256, payload.length / 256 % 256]
    ++ payload ++ [calculateCRC8 payload, 0xFF]

/-- The payload length declared at offsets 4-5, little endian
(src/printer.go:286). -/
def declaredLength (buf : List Nat) : Nat := buf.getD 4 0 + buf.getD 5 0 * 256

/-- Packet decoder: the framing portion of `parseStatusResponse`
(src/printer.go:270-291) generalised over the command id.  The source checks,
in order: minimum frame length 9 (line 270), the two preamble sentinels
(line 275), and that the declared payload length fits in the buffer
(line 288).  The source's additional `buf[2] != CmdGetStatus` comparison is
the caller's expected-command check (spec §4.2: decoding never fails on an
unexpected command id), so it is not part of the codec-level decoder. -/
def decodePacket (buf : List Nat) : Except DecodeError Packet :=
  if buf.length < 9 then .error (.frameTooShort buf.length)
  else if buf.getD 0 0 ≠ 0x22 ∨ buf.getD 1 0 ≠ 0x21 then
    .error (.badPreamble (buf.getD 0 0) (buf.getD 1 0))
  else if buf.length < 6 + declaredLength buf then
    .error (.lengthMismatch buf.length (6 + declaredLength buf))
  else .ok ⟨buf.getD 2 0, (buf.drop 6).take (declaredLength buf)⟩

theorem crcRound_lt (c : Nat) : crcRound c < 256 := by
  unfold crcRound
  split <;> exact Nat.mod_lt _ (by norm_num)

theorem crcRounds_lt (n c : Nat) (h : c < 256) : crcRounds n c < 256 := by
  induction n generalizing c with
  | zero => simpa [crcRounds] using h
  | succ n ih => simpa [crcRounds] using ih _ (crcRound_lt c)

theorem crcByteStep_lt (c b : Nat) : crcByteStep c b < 256 :=
  crcRounds_lt 8 _ (Nat.mod_lt _ (by norm_num))

theorem calculateCRC8_lt (data : List Nat) : calculateCRC8 data < 256 := by
  unfold calculateCRC8
  have h : ∀ (l : List Nat) (c : Nat), c < 256 → l.foldl crcByteStep c < 256 := by
    intro l
    induction l with
    | nil => intro c hc; simpa using hc
    | cons a t ih => intro c _; exact ih _ (crcByteStep_lt c a)
  exact h data 0 (by norm_num)

theorem calculateCRC8_append (data : List Nat) (b : Nat) :
    calculateCRC8 (data ++ [b]) = crcByteStep (calculateCRC8 data) b := by
  simp [calculateCRC8, List.foldl_append]

theorem encodePacket_length (cmd : Nat) (payload : List Nat) :
    (encodePacket cmd payload).length = 8 + payload.length := by
  simp [encodePacket]
  omega

theorem encodePacket_drop6 (cmd : Nat) (payload : List Nat) :
    (encodePacket cmd payload).drop 6 = payload ++ [calculateCRC8 payload, 0xFF] := rfl

theorem declaredLength_encode (cmd : Nat) (payload : List Nat)
    (h : payload.length ≤ 65535) :
    declaredLength (encodePacket cmd payload) = payload.length := by
  have h4 : (encodePacket cmd payload).getD 4 0 = payload.length % 256 := rfl
  have h5 : (encodePacket cmd payload).getD 5 0 = payload.length / 256 % 256 := rfl
  rw [declaredLength, h4, h5]
  omega

theorem decode_encode (cmd : Nat) (payload : List Nat) (hcmd : cmd < 256)
    (hlo : 1 ≤ payload.length) (hhi : payload.length ≤ 65535) :
    decodePacket (encodePacket cmd payload) = .ok ⟨cmd, payload⟩ := by
  have h0 : (encodePacket cmd payload).getD 0 0 = 0x22 := rfl
  have h1 : (encodePacket cmd payload).getD 1 0 = 0x21 := rfl
  have h2 : (encodePacket cmd payload).getD 2 0 = cmd % 256 := rfl
  have hlen := encodePacket_length cmd payload
  have hdl := declaredLength_encode cmd payload hhi
  have hA : ¬ ((encodePacket cmd payload).length < 9) := by omega
  have hB : ¬ ((encodePacket cmd payload).getD 0 0 ≠ 0x22 ∨
      (encodePacket cmd payload).getD 1 0 ≠ 0x21) := by
    rw [h0, h1]
    simp
  have hC : ¬ ((encodePacket cmd payload).length <
      6 + declaredLength (encodePacket cmd payload)) := by omega
  rw [decodePacket, if_neg hA, if_neg hB, if_neg hC, h2, encodePacket_drop6, hdl,
    Nat.mod_eq_of_lt hcmd]
  exact congrArg Except.ok (congrArg (Packet.mk cmd) (List.take_left payload _))

/-- Printer status snapshot (src/printer.go:49-57, `PrinterStatus`). -/
structure PrinterStatus where
  Connected : Bool
  Battery : Nat
  Temperature : Nat
  Status : Nat
  ErrorFlag : Nat
  ErrorCode : Nat
  StatusString : String
deriving Repr, DecidableEq

/-- The initial status set by `NewCatPrinter` (src/printer.go:73-75). -/
def initialStatus : PrinterStatus :=
  ⟨false, 0, 0, 0, 0, 0, "Not connected"⟩

/-- Session state (src/printer.go:38-47, `CatPrinter`): the connectivity flag,
the buffered-notification FIFO (the Go channel of capacity 10), and the last
known status.  The BLE handles are external collaborators and are represented
by the effects the operations emit. -/
structure CatPrinter where
  connected : Bool
  notifications : List (List Nat)
  lastStatus : PrinterStatus
deriving Repr, DecidableEq

/-- Observable transport actions an operation performs. -/
inductive Effect
  | scan
  | connectDevice
  | disconnectDevice
  | controlWrite (packet : List Nat)
  | dataWrite (chunk : List Nat)
deriving Repr, DecidableEq

/-- The typed errors the operations return (the `fmt.Errorf` messages of the
source, one constructor per distinct message). -/
inductive PrinterErr
  | notConnected
  | statusTimeout
  | invalidStatusLength (n : Nat)
  | invalidPreamble (b0 b1 : Nat)
  | unexpectedCommand (c : Nat)
  | responseTooShortForLength (got need : Nat)
  | statusPayloadTooShort (n : Nat)
  | printerError (flag : Nat)
  | printerBusy
  | printRequestTimeout
  | shortPrintResponse (n : Nat)
  | unexpectedPrintResponse (c : Nat)
  | printRejected (code : Nat)
  | unexpectedFlushResponse (buf : List Nat)
  | printCompletionTimeout
  | intensityOutOfRange (n : Int)
  | printerNotFound
  | mainServiceNotFound
  | charsNotFound
  | notifyEnableFailed
  | disconnectFailed
deriving Repr, DecidableEq

deriving instance DecidableEq for Except

/-- Result of one operation: the Go return value, the state afterwards, and
the packets/chunks written to the transport, in order. -/
structure OpResult where
  result : Except PrinterErr Unit
  st : CatPrinter
  sent : List Effect
deriving Repr, DecidableEq

/-- The non-blocking `select`/`default` receive that clears at most one
pending notification (src/printer.go:231-236 and 360-364). -/
def drainOne (st : CatPrinter) : CatPrinter :=
  { st with notifications := st.notifications.drop 1 }

/-- The blocking `select` with `time.After` timeout (src/printer.go:260-265,
416-440, 513-524): a buffered notification is taken first; otherwise the
buffer that arrives during the wait (`arriving`), if any; `none` means the
timeout fired. -/
def recvTimeout (st : CatPrinter) (arriving : Option (List Nat)) :
    Option (List Nat) × CatPrinter :=
  match st.notifications with
  | buf :: rest => (some buf, { st with notifications := rest })
  | [] =>
    match arriving with
    | some buf => (some buf, st)
    | none => (none, st)

/-- The Get Status (0xA1) request packet (src/printer.go:242-251). -/
def statusPacket : List Nat :=
  [0x22, 0x21, 0xA1, 0x00, 0x01, 0x00, 0x00, calculateCRC8 [0x00], 0xFF]

/-- The Flush Data (0xAD) command packet (src/printer.go:493-502). -/
def flushPacket : List Nat :=
  [0x22, 0x21, 0xAD, 0x00, 0x01, 0x00, 0x00, calculateCRC8 [0x00], 0xFF]

/-- The Set Intensity (0xA2) packet for a given intensity byte
(src/printer.go:544-553). -/
def intensityPacket (b : Nat) : List Nat :=
  [0x22, 0x21, 0xA2, 0x00, 0x01, 0x00, b, calculateCRC8 [b], 0xFF]

/-- The sequence of guarded field updates `parseStatusResponse` performs on
the stored status once the buffer has at least 13 bytes
(src/printer.go:296-319): set Connected, then Battery (offset 9),
Temperature (offset 10), Status (offset 6), ErrorFlag (offset 12) — each
behind the source's bounds check — ErrorCode (offset 13) only when the error
flag is nonzero and the byte exists, and finally the summary string. -/
def statusFromResponse (old : PrinterStatus) (buf : List Nat) : PrinterStatus :=
  let s1 := { old with Connected := true }
  let s2 := if 9 < buf.length then { s1 with Battery := buf.getD 9 0 } else s1
  let s3 := if 10 < buf.length then { s2 with Temperature := buf.getD 10 0 } else s2
  let s4 := if 6 < buf.length then { s3 with Status := buf.getD 6 0 } else s3
  let s5 :=
    if 12 < buf.length then
      let s5a := { s4 with ErrorFlag := buf.getD 12 0 }
      if s5a.ErrorFlag ≠ 0 ∧ 13 < buf.length then
        { s5a with ErrorCode := buf.getD 13 0 }
      else s5a
    else s4
  let b := s5.Battery
  let t := s5.Temperature
  let sv := s5.Status
  let e := s5.ErrorFlag
  { s5 with
    StatusString := s!"Battery: {b}%, Temp: {t}°C, Status: {sv}, Error: {e}" }

/-- `parseStatusResponse` (src/printer.go:268-329): framing checks (length 9,
preamble, command id 0xA1, declared length), then, when the buffer has at
least 13 bytes, field extraction into `lastStatus` via `statusFromResponse`,
else the short-payload error.  Returns the Go error value and the state. -/
def parseStatusResponse (st : CatPrinter) (buf : List Nat) :
    Except PrinterErr Unit × CatPrinter :=
  if buf.length < 9 then (.error (.invalidStatusLength buf.length), st)
  else if buf.getD 0 0 ≠ 0x22 ∨ buf.getD 1 0 ≠ 0x21 then
    (.error (.invalidPreamble (buf.getD 0 0) (buf.getD 1 0)), st)
  else if buf.getD 2 0 ≠ 0xA1 then (.error (.unexpectedCommand (buf.getD 2 0)), st)
  else if buf.length < 6 + declaredLength buf then
    (.error (.responseTooShortForLength buf.length (6 + declaredLength buf)), st)
  else if 13 ≤ buf.length then
    (.ok (), { st with lastStatus := statusFromResponse st.lastStatus buf })
  else (.error (.statusPayloadTooShort buf.length), st)

/-- `UpdateStatus` (src/printer.go:223-266): connectivity guard, clear at most
one pending notification, send the status-query packet, await the reply with
a 5-second timeout, parse it.  Transport writes are modelled as succeeding. -/
def UpdateStatus (st : CatPrinter) (arriving : Option (List Nat)) : OpResult :=
  if st.connected = false then ⟨.error .notConnected, st, []⟩
  else
    let st1 := drainOne st
    match recvTimeout st1 arriving with
    | (some buf, st2) =>
      let pr := parseStatusResponse st2 buf
      ⟨pr.1, pr.2, [.controlWrite statusPacket]⟩
    | (none, st2) => ⟨.error .statusTimeout, st2, [.controlWrite statusPacket]⟩

/-- `setIntensity` (src/printer.go:527-563): connectivity guard, range check
0..255, send the packet; no reply awaited. -/
def setIntensity (st : CatPrinter) (intensity : Int) : OpResult :=
  if st.connected = false then ⟨.error .notConnected, st, []⟩
  else if intensity < 0 ∨ intensity > 255 then
    ⟨.error (.intensityOutOfRange intensity), st, []⟩
  else ⟨.ok (), st, [.controlWrite (intensityPacket intensity.toNat)]⟩

/-- `flushData` (src/printer.go:484-525): connectivity guard, send the flush
packet (no stale-notification drain here), await the reply with a 30-second
timeout; a reply of at least 3 bytes whose byte 2 is 0xAA (print complete)
is success, any other reply is the unexpected-response error. -/
def flushData (st : CatPrinter) (arriving : Option (List Nat)) : OpResult :=
  if st.connected = false then ⟨.error .notConnected, st, []⟩
  else
    match recvTimeout st arriving with
    | (some buf, st1) =>
      if 3 ≤ buf.length ∧ buf.getD 2 0 = 0xAA then
        ⟨.ok (), st1, [.controlWrite flushPacket]⟩
      else ⟨.error (.unexpectedFlushResponse buf), st1, [.controlWrite flushPacket]⟩
    | (none, st1) => ⟨.error .printCompletionTimeout, st1, [.controlWrite flushPacket]⟩

/-- Right-padding of the image with zero bytes up to the 4320-byte floor
(src/printer.go:446-452). -/
def padImage (img : List Nat) : List Nat :=
  if img.length < 4320 then img ++ List.replicate (4320 - img.length) 0 else img

/-- Splitting into 20-byte chunks, a shorter final chunk when the length is
not a multiple of 20 (the loop of src/printer.go:457-462). -/
def chunksOf20 : List Nat → List (List Nat)
  | [] => []
  | a :: rest => ((a :: rest).take 20) :: chunksOf20 ((a :: rest).drop 20)
termination_by l => l.length
decreasing_by
  simp [List.length_drop]
  omega

/-- `transferImageData` (src/printer.go:443-482): pad, chunk, write each chunk
to the data channel in order, then run `flushData`; any error of `flushData`
is only logged (`ifErrNotNil`, line 478) and the function returns nil. -/
def transferImageData (st : CatPrinter) (imageData : List Nat)
    (arriving : Option (List Nat)) : OpResult :=
  let chunks := chunksOf20 (padImage imageData)
  let rf := flushData st arriving
  ⟨.ok (), rf.st, chunks.map .dataWrite ++ rf.sent⟩

/-- The 480-byte test pattern `TestPrintCard` builds (src/printer.go:332-350):
10 lines of 48 bytes, byte = 0xFF when `byteIdx % 2 == line % 2`. -/
def testImageData : List Nat :=
  (List.range 10).flatMap fun line =>
    (List.range 48).map fun byteIdx => if byteIdx % 2 = line % 2 then 0xFF else 0x00

/-- The Print Request (0xA9) packet for the 10-line test card
(src/printer.go:376-405): payload = row count LE16, fixed byte 0x30,
mode byte 0x00. -/
def printRequestPacket : List Nat :=
  [0x22, 0x21, 0xA9, 0x00, 0x04, 0x00, 10, 0, 0x30, 0x00,
    calculateCRC8 [10, 0, 0x30, 0x00], 0xFF]

/-- What the transport delivers during the three await points of a print run. -/
structure PrintEnv where
  statusArriving : Option (List Nat)
  printArriving : Option (List Nat)
  flushArriving : Option (List Nat)
deriving Repr, DecidableEq

/-- `TestPrintCard` (src/printer.go:331-441): build the test image, call
`UpdateStatus` and `setIntensity 93` with their errors ignored
(src/printer.go:354-355), clear at most one pending notification, gate on
`lastStatus.ErrorFlag` then `lastStatus.Status`, send the print request,
await the reply (5 s), validate it, and on acceptance run
`transferImageData`.  Note there is no connectivity guard of its own. -/
def TestPrintCard (st : CatPrinter) (env : PrintEnv) : OpResult :=
  let r1 := UpdateStatus st env.statusArriving
  let r2 := setIntensity r1.st 93
  let st3 := drainOne r2.st
  if st3.lastStatus.ErrorFlag ≠ 0 then
    ⟨.error (.printerError st3.lastStatus.ErrorFlag), st3, r1.sent ++ r2.sent⟩
  else if st3.lastStatus.Status ≠ 0 then
    ⟨.error .printerBusy, st3, r1.sent ++ r2.sent⟩
  else
    let sent0 := r1.sent ++ r2.sent ++ [Effect.controlWrite printRequestPacket]
    match recvTimeout st3 env.printArriving with
    | (none, st4) => ⟨.error .printRequestTimeout, st4, sent0⟩
    | (some buf, st4) =>
      if 7 ≤ buf.length then
        if buf.getD 2 0 = 0xA9 then
          if buf.getD 6 0 = 0 then
            let rt := transferImageData st4 testImageData env.flushArriving
            ⟨rt.result, rt.st, sent0 ++ rt.sent⟩
          else ⟨.error (.printRejected (buf.getD 6 0)), st4, sent0⟩
        else ⟨.error (.unexpectedPrintResponse (buf.getD 2 0)), st4, sent0⟩
      else ⟨.error (.shortPrintResponse buf.length), st4, sent0⟩

/-- What the transport reports during `Connect`'s scan/bind sequence. -/
structure ConnectEnv where
  found : Bool
  serviceFound : Bool
  charsFound : Bool
  notifyOk : Bool
  statusArriving : Option (List Nat)
deriving Repr, DecidableEq

/-- `Connect` (src/printer.go:80-186): immediate nil when already connected
(lines 81-83); else scan for the device, bind service/characteristics, enable
notifications, set `connected`, and run `UpdateStatus` with its result
ignored (line 183). -/
def Connect (st : CatPrinter) (env : ConnectEnv) : OpResult :=
  if st.connected = true then ⟨.ok (), st, []⟩
  else if env.found = false then ⟨.error .printerNotFound, st, [.scan]⟩
  else if env.serviceFound = false then
    ⟨.error .mainServiceNotFound, st, [.scan, .connectDevice]⟩
  else if env.charsFound = false then
    ⟨.error .charsNotFound, st, [.scan, .connectDevice]⟩
  else if env.notifyOk = false then
    ⟨.error .notifyEnableFailed, st, [.scan, .connectDevice]⟩
  else
    let r := UpdateStatus { st with connected := true } env.statusArriving
    ⟨.ok (), r.st, [.scan, .connectDevice] ++ r.sent⟩

/-- `Disconnect` (src/printer.go:188-199): immediate nil when not connected
(lines 189-191); else one transport disconnect call, clear the connectivity
flag and mark the status disconnected, returning the transport's error. -/
def Disconnect (st : CatPrinter) (transportOk : Bool) : OpResult :=
  if st.connected = false then ⟨.ok (), st, []⟩
  else
    ⟨if transportOk then .ok () else .error .disconnectFailed,
      { st with connected := false,
                lastStatus := { st.lastStatus with
                  Connected := false, StatusString := "Disconnected" } },
      [.disconnectDevice]⟩

theorem statusFromResponse_fields (old : PrinterStatus) (buf : List Nat)
    (h13 : 13 ≤ buf.length) :
    (statusFromResponse old buf).Connected = true
    ∧ (statusFromResponse old buf).Battery = buf.getD 9 0
    ∧ (statusFromResponse old buf).Temperature = buf.getD 10 0
    ∧ (statusFromResponse old buf).Status = buf.getD 6 0
    ∧ (statusFromResponse old buf).ErrorFlag = buf.getD 12 0
    ∧ (buf.getD 12 0 ≠ 0 → 13 < buf.length →
        (statusFromResponse old buf).ErrorCode = buf.getD 13 0) := by
  have h9 : 9 < buf.length := by omega
  have h10 : 10 < buf.length := by omega
  have h6 : 6 < buf.length := by omega
  have h12 : 12 < buf.length := by omega
  simp [statusFromResponse, h9, h10, h6, h12]
  split <;> simp_all

theorem parseStatusResponse_ok (st : CatPrinter) (buf : List Nat)
    (hp0 : buf.getD 0 0 = 0x22) (hp1 : buf.getD 1 0 = 0x21)
    (hcmd : buf.getD 2 0 = 0xA1)
    (hdl : 6 + declaredLength buf ≤ buf.length) (h13 : 13 ≤ buf.length) :
    parseStatusResponse st buf =
      (.ok (), { st with lastStatus := statusFromResponse st.lastStatus buf }) := by
  unfold parseStatusResponse
  rw [if_neg (by omega : ¬ buf.length < 9),
    if_neg (by rw [hp0, hp1]; simp),
    if_neg (by rw [hcmd]; simp),
    if_neg (by omega : ¬ buf.length < 6 + declaredLength buf),
    if_pos h13]

theorem parseStatusResponse_short (st : CatPrinter) (buf : List Nat)
    (hp0 : buf.getD 0 0 = 0x22) (hp1 : buf.getD 1 0 = 0x21)
    (hcmd : buf.getD 2 0 = 0xA1)
    (hdl : 6 + declaredLength buf ≤ buf.length) (h9 : 9 ≤ buf.length)
    (h13 : buf.length < 13) :
    parseStatusResponse st buf = (.error (.statusPayloadTooShort buf.length), st) := by
  unfold parseStatusResponse
  rw [if_neg (by omega : ¬ buf.length < 9),
    if_neg (by rw [hp0, hp1]; simp),
    if_neg (by rw [hcmd]; simp),
    if_neg (by omega : ¬ buf.length < 6 + declaredLength buf),
    if_neg (by omega : ¬ 13 ≤ buf.length)]

theorem recvTimeout_empty (st : CatPrinter) (arriving : Option (List Nat))
    (hm : st.notifications = []) : recvTimeout st arriving = (arriving, st) := by
  unfold recvTimeout
  rw [hm]
  cases arriving <;> rfl

theorem drainOne_empty (st : CatPrinter) (hm : st.notifications = []) :
    drainOne st = st := by
  cases st
  simp_all [drainOne]

theorem UpdateStatus_of_empty (st : CatPrinter) (buf : List Nat)
    (hc : st.connected = true) (hm : st.notifications = []) :
    UpdateStatus st (some buf) =
      ⟨(parseStatusResponse st buf).1, (parseStatusResponse st buf).2,
        [.controlWrite statusPacket]⟩ := by
  unfold UpdateStatus
  rw [hc]
  simp only [Bool.true_eq_false, if_false]
  rw [drainOne_empty st hm, recvTimeout_empty st _ hm]

theorem UpdateStatus_timeout (st : CatPrinter)
    (hc : st.connected = true) (hm : st.notifications = []) :
    UpdateStatus st none = ⟨.error .statusTimeout, st, [.controlWrite statusPacket]⟩ := by
  unfold UpdateStatus
  rw [hc]
  simp only [Bool.true_eq_false, if_false]
  rw [drainOne_empty st hm, recvTimeout_empty st _ hm]

theorem chunksOf20_exact (m : Nat) (l : List Nat) (h : l.length = 20 * m) :
    (chunksOf20 l).length = m ∧ (∀ c ∈ chunksOf20 l, c.length = 20)
      ∧ (chunksOf20 l).flatten = l := by
  induction m generalizing l with
  | zero =>
    have hl : l = [] := List.length_eq_zero.mp (by omega)
    subst hl
    simp [chunksOf20]
  | succ m ih =>
    match l with
    | [] => simp at h
    | a :: rest =>
      have hdrop : ((a :: rest).drop 20).length = 20 * m := by
        rw [List.length_drop, h]
        omega
      have htake : ((a :: rest).take 20).length = 20 := by
        rw [List.length_take, h]
        omega
      obtain ⟨ih1, ih2, ih3⟩ := ih _ hdrop
      rw [chunksOf20]
      refine ⟨?_, ?_, ?_⟩
      · rw [List.length_cons, ih1]
      · intro c hc
        rw [List.mem_cons] at hc
        rcases hc with hc | hc
        · rw [hc]
          exact htake
        · exact ih2 c hc
      · rw [List.flatten_cons, ih3]
        exact List.take_append_drop 20 (a :: rest)


theorem parseStatusResponse_preserves (st : CatPrinter) (buf : List Nat) :
    (parseStatusResponse st buf).2.connected = st.connected
    ∧ (parseStatusResponse st buf).2.notifications = st.notifications := by
  unfold parseStatusResponse
  constructor
  · repeat' split
    all_goals rfl
  · repeat' split
    all_goals rfl

theorem parseStatusResponse_mailbox_invariant (c : Bool) (n n' : List (List Nat))
    (ls : PrinterStatus) (buf : List Nat) :
    (parseStatusResponse ⟨c, n, ls⟩ buf).1 = (parseStatusResponse ⟨c, n', ls⟩ buf).1
    ∧ (parseStatusResponse ⟨c, n, ls⟩ buf).2.lastStatus
      = (parseStatusResponse ⟨c, n', ls⟩ buf).2.lastStatus := by
  unfold parseStatusResponse
  by_cases h1 : buf.length < 9
  · simp only [if_pos h1]
    exact ⟨trivial, trivial⟩
  simp only [if_neg h1]
  by_cases h2 : buf.getD 0 0 ≠ 0x22 ∨ buf.getD 1 0 ≠ 0x21
  · simp only [if_pos h2]
    exact ⟨trivial, trivial⟩
  simp only [if_neg h2]
  by_cases h3 : buf.getD 2 0 ≠ 0xA1
  · simp only [if_pos h3]
    exact ⟨trivial, trivial⟩
  simp only [if_neg h3]
  by_cases h4 : buf.length < 6 + declaredLength buf
  · simp only [if_pos h4]
    exact ⟨trivial, trivial⟩
  simp only [if_neg h4]
  by_cases h5 : 13 ≤ buf.length
  · simp only [if_pos h5]
    exact ⟨trivial, trivial⟩
  · simp only [if_neg h5]
    exact ⟨trivial, trivial⟩

theorem UpdateStatus_cons2 (st : CatPrinter) (hc : st.connected = true)
    (s1 s2 : List Nat) (rest : List (List Nat)) (arriving : Option (List Nat))
    (hm : st.notifications = s1 :: s2 :: rest) :
    UpdateStatus st arriving =
      ⟨(parseStatusResponse { st with notifications := rest } s2).1,
        (parseStatusResponse { st with notifications := rest } s2).2,
        [.controlWrite statusPacket]⟩ := by
  unfold UpdateStatus
  rw [if_neg (show ¬ (st.connected = false) by rw [hc]; simp)]
  have hd : drainOne st = { st with notifications := s2 :: rest } := by
    unfold drainOne
    rw [hm]
    rfl
  rw [hd]
  dsimp only
  have hr : recvTimeout { st with notifications := s2 :: rest } arriving
      = (some s2, { st with notifications := rest }) := by
    unfold recvTimeout
    rfl
  rw [hr]

/-- With two or more buffered notifications, `UpdateStatus` drains the first
and consumes the second as its reply; `TestPrintCard`'s own drain
(src/printer.go:360-364) then discards the next one before the print request
is sent, so a third buffered stale notification changes nothing — in
particular it is never taken as the print request's reply. -/
theorem TestPrintCard_drains_one (st : CatPrinter) (hc : st.connected = true)
    (s1 s2 s3 : List Nat) (env : PrintEnv) :
    TestPrintCard { st with notifications := [s1, s2, s3] } env
      = TestPrintCard { st with notifications := [s1, s2] } env := by
  have e1 : UpdateStatus { st with notifications := [s1, s2, s3] } env.statusArriving
      = ⟨(parseStatusResponse { st with notifications := [s3] } s2).1,
          (parseStatusResponse { st with notifications := [s3] } s2).2,
          [.controlWrite statusPacket]⟩ :=
    UpdateStatus_cons2 { st with notifications := [s1, s2, s3] } hc
      s1 s2 [s3] env.statusArriving rfl
  have e2 : UpdateStatus { st with notifications := [s1, s2] } env.statusArriving
      = ⟨(parseStatusResponse { st with notifications := [] } s2).1,
          (parseStatusResponse { st with notifications := [] } s2).2,
          [.controlWrite statusPacket]⟩ :=
    UpdateStatus_cons2 { st with notifications := [s1, s2] } hc
      s1 s2 [] env.statusArriving rfl
  obtain ⟨q1, q2⟩ := parseStatusResponse_mailbox_invariant st.connected [s3] []
    st.lastStatus s2
  obtain ⟨hcA, hnA⟩ := parseStatusResponse_preserves { st with notifications := [s3] } s2
  obtain ⟨hcB, hnB⟩ := parseStatusResponse_preserves { st with notifications := [] } s2
  have hsiA : setIntensity (parseStatusResponse { st with notifications := [s3] } s2).2 93
      = ⟨.ok (), (parseStatusResponse { st with notifications := [s3] } s2).2,
          [.controlWrite (intensityPacket 93)]⟩ := by
    unfold setIntensity
    rw [if_neg (by rw [hcA, hc]; simp), if_neg (by norm_num)]
    rfl
  have hsiB : setIntensity (parseStatusResponse { st with notifications := [] } s2).2 93
      = ⟨.ok (), (parseStatusResponse { st with notifications := [] } s2).2,
          [.controlWrite (intensityPacket 93)]⟩ := by
    unfold setIntensity
    rw [if_neg (by rw [hcB, hc]; simp), if_neg (by norm_num)]
    rfl
  have hd : drainOne (parseStatusResponse { st with notifications := [s3] } s2).2
      = drainOne (parseStatusResponse { st with notifications := [] } s2).2 := by
    show (⟨(parseStatusResponse { st with notifications := [s3] } s2).2.connected,
        (parseStatusResponse { st with notifications := [s3] } s2).2.notifications.drop 1,
        (parseStatusResponse { st with notifications := [s3] } s2).2.lastStatus⟩ : CatPrinter)
      = ⟨(parseStatusResponse { st with notifications := [] } s2).2.connected,
        (parseStatusResponse { st with notifications := [] } s2).2.notifications.drop 1,
        (parseStatusResponse { st with notifications := [] } s2).2.lastStatus⟩
    rw [hcA, hcB, hnA, hnB, q2]
    rfl
  unfold TestPrintCard
  rw [e1, e2]
  dsimp only
  rw [hsiA, hsiB]
  dsimp only
  rw [hd]

theorem UpdateStatus_invariants (st : CatPrinter) (arriving : Option (List Nat))
    (hc : st.connected = true) (hm : st.notifications = []) :
    (UpdateStatus st arriving).sent = [.controlWrite statusPacket]
    ∧ (UpdateStatus st arriving).st.connected = true
    ∧ (UpdateStatus st arriving).st.notifications = [] := by
  cases arriving with
  | none =>
    rw [UpdateStatus_timeout st hc hm]
    exact ⟨rfl, hc, hm⟩
  | some buf =>
    rw [UpdateStatus_of_empty st buf hc hm]
    obtain ⟨h1, h2⟩ := parseStatusResponse_preserves st buf
    refine ⟨rfl, ?_, ?_⟩
    · show (parseStatusResponse st buf).2.connected = true
      rw [h1, hc]
    · show (parseStatusResponse st buf).2.notifications = []
      rw [h2, hm]

/-- Claim C1: on a connected session, `getStatus` (`UpdateStatus`) sends the
status-query packet (which is `encodePacket 0xA1 [0x00]`); on a framed reply
of at least 13 bytes it succeeds and stores battery = byte 9,
temperature = byte 10, operational state = byte 6, error flag = byte 12, and
error code = byte 13 when the error flag is nonzero (and the byte exists);
a framed reply shorter than 13 bytes fails with the short-status-payload
error and leaves the state unchanged. -/
theorem C1_getStatus_parse (st : CatPrinter) (buf : List Nat)
    (hc : st.connected = true) (hm : st.notifications = [])
    (hp0 : buf.getD 0 0 = 0x22) (hp1 : buf.getD 1 0 = 0x21)
    (hcmd : buf.getD 2 0 = 0xA1) (h9 : 9 ≤ buf.length)
    (hdl : 6 + declaredLength buf ≤ buf.length) :
    (UpdateStatus st (some buf)).sent = [Effect.controlWrite statusPacket]
    ∧ statusPacket = encodePacket 0xA1 [0x00]
    ∧ (13 ≤ buf.length →
        (UpdateStatus st (some buf)).result = .ok ()
        ∧ (UpdateStatus st (some buf)).st.lastStatus.Battery = buf.getD 9 0
        ∧ (UpdateStatus st (some buf)).st.lastStatus.Temperature = buf.getD 10 0
        ∧ (UpdateStatus st (some buf)).st.lastStatus.Status = buf.getD 6 0
        ∧ (UpdateStatus st (some buf)).st.lastStatus.ErrorFlag = buf.getD 12 0
        ∧ (buf.getD 12 0 ≠ 0 → 13 < buf.length →
            (UpdateStatus st (some buf)).st.lastStatus.ErrorCode = buf.getD 13 0))
    ∧ (buf.length < 13 →
        (UpdateStatus st (some buf)).result = .error (.statusPayloadTooShort buf.length)
        ∧ (UpdateStatus st (some buf)).st = st) := by
  rw [UpdateStatus_of_empty st buf hc hm]
  refine ⟨rfl, by decide, ?_, ?_⟩
  · intro h13
    rw [parseStatusResponse_ok st buf hp0 hp1 hcmd hdl h13]
    obtain ⟨f1, f2, f3, f4, f5, f6⟩ := statusFromResponse_fields st.lastStatus buf h13
    exact ⟨rfl, f2, f3, f4, f5, f6⟩
  · intro hlt
    rw [parseStatusResponse_short st buf hp0 hp1 hcmd hdl h9 hlt]
    exact ⟨rfl, rfl⟩

def exampleSession : CatPrinter := ⟨true, [], initialStatus⟩

def exampleStatusReply : List Nat :=
  [0x22, 0x21, 0xA1, 0x00, 0x08, 0x00, 0x00, 0, 0, 80, 25, 0, 0, 0]

/-- Witness for C1: the claim's concrete example — a 14-byte framed reply with
battery 80, temperature 25, state 0, error flag 0 yields exactly those stored
fields. -/
theorem C1_getStatus_parse_witness :
    exampleSession.connected = true
    ∧ exampleSession.notifications = []
    ∧ exampleStatusReply.getD 0 0 = 0x22
    ∧ exampleStatusReply.getD 1 0 = 0x21
    ∧ exampleStatusReply.getD 2 0 = 0xA1
    ∧ 9 ≤ exampleStatusReply.length
    ∧ 6 + declaredLength exampleStatusReply ≤ exampleStatusReply.length
    ∧ 13 ≤ exampleStatusReply.length
    ∧ (UpdateStatus exampleSession (some exampleStatusReply)).result = .ok ()
    ∧ (UpdateStatus exampleSession (some exampleStatusReply)).st.lastStatus.Battery = 80
    ∧ (UpdateStatus exampleSession (some exampleStatusReply)).st.lastStatus.Temperature = 25
    ∧ (UpdateStatus exampleSession (some exampleStatusReply)).st.lastStatus.Status = 0
    ∧ (UpdateStatus exampleSession (some exampleStatusReply)).st.lastStatus.ErrorFlag = 0 := by
  have h := C1_getStatus_parse exampleSession exampleStatusReply (by decide) (by decide)
    (by decide) (by decide) (by decide) (by decide) (by decide)
  obtain ⟨hs, he, hmid, hshort⟩ := h
  obtain ⟨r1, r2, r3, r4, r5, r6⟩ := hmid (by decide)
  exact ⟨by decide, by decide, by decide, by decide, by decide, by decide, by decide,
    by decide, r1, by rw [r2]; decide, by rw [r3]; decide, by rw [r4]; decide,
    by rw [r5]; decide⟩



/-- Counterexample to C6 as stated: for the empty payload (length 0, which the
claim includes) the encoded packet is 8 bytes and the decoder rejects it as
too short, so `decode(encode(cmd, []))` does not recover the payload. -/
theorem C6_packet_roundtrip_cex :
    decodePacket (encodePacket 0xA1 []) = .error (.frameTooShort 8) := by decide

/-- Claim C6 (amended): for every command id below 256 and every payload of
length 1-65535, the encoded packet is laid out as preamble 0x22 0x21,
command id, reserved 0x00, little-endian 16-bit payload length, payload,
CRC-8 over the payload only, footer 0xFF; and decoding the encoded packet
recovers the same payload and command id.  (Amendment: payload length 0 is
excluded — its 8-byte frame is rejected as too short, see the
counterexample.) -/
theorem C6_packet_roundtrip_amended (cmd : Nat) (payload : List Nat)
    (hcmd : cmd < 256) (hlo : 1 ≤ payload.length) (hhi : payload.length ≤ 65535) :
    encodePacket cmd payload =
      [0x22, 0x21, cmd, 0x00, payload.length % 256, payload.length / 256]
        ++ payload ++ [calculateCRC8 payload, 0xFF]
    ∧ (decodePacket (encodePacket cmd payload)).map Packet.payload = .ok payload
    ∧ (decodePacket (encodePacket cmd payload)).map Packet.commandId = .ok cmd := by
  have hq : payload.length / 256 < 256 := Nat.div_lt_of_lt_mul (by omega)
  refine ⟨?_, ?_, ?_⟩
  · rw [encodePacket, Nat.mod_eq_of_lt hcmd, Nat.mod_eq_of_lt hq]
  · rw [decode_encode cmd payload hcmd hlo hhi]
    rfl
  · rw [decode_encode cmd payload hcmd hlo hhi]
    rfl

/-- Witness for C6 (amended) at command id 0xA1 and payload `[0x00]`. -/
theorem C6_packet_roundtrip_amended_witness :
    (0xA1 : Nat) < 256 ∧ 1 ≤ ([0x00] : List Nat).length ∧ ([0x00] : List Nat).length ≤ 65535
    ∧ (decodePacket (encodePacket 0xA1 [0x00])).map Packet.payload = .ok [0x00]
    ∧ (decodePacket (encodePacket 0xA1 [0x00])).map Packet.commandId = .ok 0xA1 :=
  ⟨by decide, by decide, by decide,
    (C6_packet_roundtrip_amended 0xA1 [0x00] (by decide) (by decide) (by decide)).2.1,
    (C6_packet_roundtrip_amended 0xA1 [0x00] (by decide) (by decide) (by decide)).2.2⟩

/-- Claim C7: `decodePacket` fails with the frame-too-short error for every
buffer shorter than 9 bytes; with the bad-preamble error for every buffer of
length at least 9 whose first two bytes are not 0x22 0x21; and with the
length-mismatch error whenever (the frame being long enough and the preamble
right) the declared little-endian length at offsets 4-5 exceeds the trailing
bytes available. -/
theorem C7_decode_rejects (buf : List Nat) :
    (buf.length < 9 → decodePacket buf = .error (.frameTooShort buf.length))
    ∧ (9 ≤ buf.length → ¬(buf.getD 0 0 = 0x22 ∧ buf.getD 1 0 = 0x21) →
        decodePacket buf = .error (.badPreamble (buf.getD 0 0) (buf.getD 1 0)))
    ∧ (9 ≤ buf.length → buf.getD 0 0 = 0x22 → buf.getD 1 0 = 0x21 →
        buf.length < 6 + declaredLength buf →
        decodePacket buf = .error (.lengthMismatch buf.length (6 + declaredLength buf))) := by
  refine ⟨?_, ?_, ?_⟩
  · intro h
    unfold decodePacket
    rw [if_pos h]
  · intro h9 hpre
    unfold decodePacket
    rw [if_neg (by omega), if_pos (by tauto)]
  · intro h9 hp0 hp1 hlen
    unfold decodePacket
    rw [if_neg (by omega), if_neg (by rw [hp0, hp1]; simp), if_pos hlen]

/-- Witness for C7: one concrete buffer per rejection clause. -/
theorem C7_decode_rejects_witness :
    (([0x22] : List Nat).length < 9
      ∧ decodePacket [0x22] = .error (.frameTooShort 1))
    ∧ (9 ≤ ([0, 0, 0, 0, 0, 0, 0, 0, 0] : List Nat).length
      ∧ decodePacket [0, 0, 0, 0, 0, 0, 0, 0, 0] = .error (.badPreamble 0 0))
    ∧ (9 ≤ ([0x22, 0x21, 0xA1, 0, 0xFF, 0xFF, 0, 0, 0] : List Nat).length
      ∧ ([0x22, 0x21, 0xA1, 0, 0xFF, 0xFF, 0, 0, 0] : List Nat).length
          < 6 + declaredLength [0x22, 0x21, 0xA1, 0, 0xFF, 0xFF, 0, 0, 0]
      ∧ decodePacket [0x22, 0x21, 0xA1, 0, 0xFF, 0xFF, 0, 0, 0]
          = .error (.lengthMismatch 9 65541)) :=
  ⟨⟨by decide, (C7_decode_rejects [0x22]).1 (by decide)⟩,
    ⟨by decide, (C7_decode_rejects [0, 0, 0, 0, 0, 0, 0, 0, 0]).2.1 (by decide) (by decide)⟩,
    ⟨by decide, by decide,
      (C7_decode_rejects [0x22, 0x21, 0xA1, 0, 0xFF, 0xFF, 0, 0, 0]).2.2
        (by decide) (by decide) (by decide) (by decide)⟩⟩

/-- Claim C8: `calculateCRC8` is the pure CRC-8 with polynomial 0x07, initial
value 0x00, no reflection and no final XOR: each byte is XORed into the
running register followed by eight shift/XOR rounds (`crcByteStep`), the
result always fits in 8 bits, the empty payload and `[0x00]` both hash to
0x00, and the standard check input "123456789" hashes to 0xF4 — the published
check value for exactly these CRC parameters. -/
theorem C8_crc8_spec :
    calculateCRC8 [] = 0x00
    ∧ calculateCRC8 [0x00] = 0x00
    ∧ calculateCRC8 [0x31, 0x32, 0x33, 0x34, 0x35, 0x36, 0x37, 0x38, 0x39] = 0xF4
    ∧ (∀ data b, calculateCRC8 (data ++ [b]) = crcByteStep (calculateCRC8 data) b)
    ∧ (∀ data, calculateCRC8 data < 256) :=
  ⟨rfl, rfl, by decide, calculateCRC8_append, calculateCRC8_lt⟩

theorem flushData_sent_no_data (st : CatPrinter) (arriving : Option (List Nat)) :
    (flushData st arriving).sent = []
    ∨ (flushData st arriving).sent = [Effect.controlWrite flushPacket] := by
  unfold flushData
  repeat' split
  all_goals first | exact Or.inl rfl | exact Or.inr rfl

/-- Claim C9: every image buffer shorter than 4320 bytes is right-padded with
zero bytes to exactly 4320 bytes, and the transfer writes the padded buffer
to the data channel sequentially as exactly 216 chunks of 20 bytes whose
concatenation is the padded buffer. -/
theorem C9_transfer_pads_chunks (img : List Nat) (h : img.length < 4320) :
    padImage img = img ++ List.replicate (4320 - img.length) 0
    ∧ (padImage img).length = 4320
    ∧ (chunksOf20 (padImage img)).length = 216
    ∧ (∀ c ∈ chunksOf20 (padImage img), c.length = 20)
    ∧ (chunksOf20 (padImage img)).flatten = padImage img
    ∧ (∀ st arriving, (transferImageData st img arriving).sent.filterMap
          (fun e => match e with | .dataWrite c => some c | _ => none)
        = chunksOf20 (padImage img)) := by
  have hpad : padImage img = img ++ List.replicate (4320 - img.length) 0 := by
    unfold padImage
    rw [if_pos h]
  have hlen : (padImage img).length = 4320 := by
    rw [hpad, List.length_append, List.length_replicate]
    omega
  obtain ⟨hn, hall, hjoin⟩ := chunksOf20_exact 216 (padImage img) (by rw [hlen])
  refine ⟨hpad, hlen, hn, hall, hjoin, ?_⟩
  intro st arriving
  show (((chunksOf20 (padImage img)).map Effect.dataWrite)
      ++ (flushData st arriving).sent).filterMap
      (fun e => match e with | .dataWrite c => some c | _ => none)
    = chunksOf20 (padImage img)
  rw [List.filterMap_append, List.filterMap_map]
  have h1 : List.filterMap
      ((fun e => match e with | Effect.dataWrite c => some c | _ => none)
        ∘ Effect.dataWrite) (chunksOf20 (padImage img)) = chunksOf20 (padImage img) := by
    have hcomp : ((fun e => match e with | Effect.dataWrite c => some c | _ => none)
        ∘ Effect.dataWrite) = (some : List Nat → Option (List Nat)) := by
      funext c
      rfl
    rw [hcomp, List.filterMap_some]
  have h2 : List.filterMap
      (fun e => match e with | Effect.dataWrite c => some c | _ => none)
      (flushData st arriving).sent = [] := by
    rcases flushData_sent_no_data st arriving with hs | hs <;> rw [hs] <;> rfl
  rw [h1, h2, List.append_nil]

/-- Witness for C9 at the claim's 480-byte input. -/
theorem C9_transfer_pads_chunks_witness :
    (List.replicate 480 (255 : Nat)).length < 4320
    ∧ (padImage (List.replicate 480 255)).length = 4320
    ∧ (chunksOf20 (padImage (List.replicate 480 255))).length = 216 :=
  ⟨by rw [List.length_replicate]; omega,
    (C9_transfer_pads_chunks (List.replicate 480 255)
      (by rw [List.length_replicate]; omega)).2.1,
    (C9_transfer_pads_chunks (List.replicate 480 255)
      (by rw [List.length_replicate]; omega)).2.2.1⟩

/-- Claim C10: `Connect` on an already-connected session returns success
immediately with the state unchanged and no transport action (no scan), and
`Disconnect` on an already-disconnected session returns success with the
state (including the stored status) unchanged and no transport action. -/
theorem C10_lifecycle_idempotent (st : CatPrinter) (env : ConnectEnv) (tOk : Bool) :
    (st.connected = true → Connect st env = ⟨.ok (), st, []⟩)
    ∧ (st.connected = false → Disconnect st tOk = ⟨.ok (), st, []⟩) := by
  constructor
  · intro h
    unfold Connect
    rw [if_pos h]
  · intro h
    unfold Disconnect
    rw [if_pos h]

/-- Witness for C10 at concrete connected and disconnected sessions. -/
theorem C10_lifecycle_idempotent_witness :
    (⟨true, [], initialStatus⟩ : CatPrinter).connected = true
    ∧ Connect ⟨true, [], initialStatus⟩ ⟨false, false, false, false, none⟩
        = ⟨.ok (), ⟨true, [], initialStatus⟩, []⟩
    ∧ (⟨false, [], initialStatus⟩ : CatPrinter).connected = false
    ∧ Disconnect ⟨false, [], initialStatus⟩ true
        = ⟨.ok (), ⟨false, [], initialStatus⟩, []⟩ :=
  ⟨by decide,
    (C10_lifecycle_idempotent ⟨true, [], initialStatus⟩
      ⟨false, false, false, false, none⟩ true).1 (by decide),
    by decide,
    (C10_lifecycle_idempotent ⟨false, [], initialStatus⟩
      ⟨false, false, false, false, none⟩ true).2 (by decide)⟩




def disconnectedSession : CatPrinter := ⟨false, [], initialStatus⟩

/-- Counterexample to C2 as stated: `TestPrintCard` (print) on a disconnected
session does not fail with the not-connected error — it sends the
print-request packet anyway and fails with the print-request timeout. -/
theorem C2_not_connected_cex :
    (TestPrintCard disconnectedSession ⟨none, none, none⟩).result
        = .error .printRequestTimeout
    ∧ (TestPrintCard disconnectedSession ⟨none, none, none⟩).result
        ≠ .error .notConnected
    ∧ (TestPrintCard disconnectedSession ⟨none, none, none⟩).sent
        = [Effect.controlWrite printRequestPacket] := by
  refine ⟨by decide, by decide, by decide⟩

/-- Claim C2 (amended): `getStatus`, `setIntensity` and the flush/completion
exchange each fail with the not-connected error and send no packet when
the session is not connected; `print` (`TestPrintCard`), however, performs no
connectivity check of its own — its internal status/intensity calls fail
with the not-connected error and are ignored, and the print-request packet
is sent regardless. -/
theorem C2_not_connected_amended (st : CatPrinter) (h : st.connected = false) :
    (∀ arriving, UpdateStatus st arriving = ⟨.error .notConnected, st, []⟩)
    ∧ (∀ n, setIntensity st n = ⟨.error .notConnected, st, []⟩)
    ∧ (∀ arriving, flushData st arriving = ⟨.error .notConnected, st, []⟩)
    ∧ (st.notifications = [] → st.lastStatus.ErrorFlag = 0 →
        st.lastStatus.Status = 0 → ∀ env : PrintEnv,
        (TestPrintCard st env).sent.take 1 = [Effect.controlWrite printRequestPacket]) := by
  have hu : ∀ arriving, UpdateStatus st arriving = ⟨.error .notConnected, st, []⟩ := by
    intro arriving
    unfold UpdateStatus
    rw [if_pos h]
  have hsi : ∀ n, setIntensity st n = ⟨.error .notConnected, st, []⟩ := by
    intro n
    unfold setIntensity
    rw [if_pos h]
  have hf : ∀ arriving, flushData st arriving = ⟨.error .notConnected, st, []⟩ := by
    intro arriving
    unfold flushData
    rw [if_pos h]
  refine ⟨hu, hsi, hf, ?_⟩
  intro hm hflag hstat env
  show (TestPrintCard st env).sent.take 1 = [Effect.controlWrite printRequestPacket]
  unfold TestPrintCard
  rw [hu env.statusArriving]
  simp only
  rw [hsi 93]
  simp only
  rw [drainOne_empty st hm]
  rw [if_neg (by rw [hflag]; simp), if_neg (by rw [hstat]; simp)]
  rw [recvTimeout_empty st env.printArriving hm]
  cases env.printArriving with
  | none => rfl
  | some buf =>
    simp only
    repeat' split
    all_goals rfl

/-- Witness for C2 (amended) at a concrete disconnected session. -/
theorem C2_not_connected_amended_witness :
    disconnectedSession.connected = false
    ∧ UpdateStatus disconnectedSession none = ⟨.error .notConnected, disconnectedSession, []⟩
    ∧ setIntensity disconnectedSession 93 = ⟨.error .notConnected, disconnectedSession, []⟩
    ∧ flushData disconnectedSession none = ⟨.error .notConnected, disconnectedSession, []⟩
    ∧ (TestPrintCard disconnectedSession ⟨none, none, none⟩).sent.take 1
        = [Effect.controlWrite printRequestPacket] := by
  obtain ⟨h1, h2, h3, h4⟩ := C2_not_connected_amended disconnectedSession (by decide)
  exact ⟨by decide, h1 none, h2 93, h3 none,
    h4 (by decide) (by decide) (by decide) ⟨none, none, none⟩⟩

def connectedSession : CatPrinter := ⟨true, [], initialStatus⟩

def acceptedPrintReply : List Nat := [0x22, 0x21, 0xA9, 0x00, 0x01, 0x00, 0x00]

/-- Counterexample to C3 as stated: when the flush/completion exchange times
out, `transferImageData` (and hence a full `TestPrintCard` run whose print
request was accepted) still returns success — the flush error is logged and
discarded, not returned to the caller. -/
theorem C3_flush_error_swallowed_cex :
    (flushData connectedSession none).result = .error .printCompletionTimeout
    ∧ (transferImageData connectedSession testImageData none).result = .ok ()
    ∧ (TestPrintCard connectedSession ⟨none, some acceptedPrintReply, none⟩).result
        = .ok () := by
  refine ⟨by decide, rfl, by decide⟩

/-- Claim C3 (amended): `flushData` itself produces the typed errors — the
print-completion timeout when no reply arrives, and the unexpected-response
error when the reply is not a print-complete (0xAA) frame — but
`transferImageData` logs and discards whatever `flushData` returns and always
reports success, so `print` does not propagate the flush error. -/
theorem C3_flush_errors_amended (st : CatPrinter) (hc : st.connected = true)
    (hm : st.notifications = []) :
    (flushData st none).result = .error .printCompletionTimeout
    ∧ (∀ buf, ¬(3 ≤ buf.length ∧ buf.getD 2 0 = 0xAA) →
        (flushData st (some buf)).result = .error (.unexpectedFlushResponse buf))
    ∧ (∀ img arriving, (transferImageData st img arriving).result = .ok ()) := by
  have hcc : ¬ (st.connected = false) := by
    rw [hc]
    simp
  refine ⟨?_, ?_, fun img arriving => rfl⟩
  · unfold flushData
    rw [if_neg hcc, recvTimeout_empty st none hm]
  · intro buf hbad
    unfold flushData
    rw [if_neg hcc, recvTimeout_empty st (some buf) hm]
    simp only
    rw [if_neg hbad]

/-- Witness for C3 (amended) at a concrete connected session. -/
theorem C3_flush_errors_amended_witness :
    connectedSession.connected = true
    ∧ connectedSession.notifications = []
    ∧ (flushData connectedSession none).result = .error .printCompletionTimeout
    ∧ ¬(3 ≤ ([0, 0, 0] : List Nat).length ∧ ([0, 0, 0] : List Nat).getD 2 0 = 0xAA)
    ∧ (flushData connectedSession (some [0, 0, 0])).result
        = .error (.unexpectedFlushResponse [0, 0, 0])
    ∧ (transferImageData connectedSession [1, 2, 3] none).result = .ok () := by
  obtain ⟨h1, h2, h3⟩ := C3_flush_errors_amended connectedSession (by decide) (by decide)
  exact ⟨by decide, by decide, h1, by decide, h2 [0, 0, 0] (by decide), h3 [1, 2, 3] none⟩

def stalePrintComplete : List Nat := [0x22, 0x21, 0xAA]

/-- Counterexample to C4 as stated: the flush exchange performs no
stale-notification drain — with a leftover print-complete notification
buffered and no new reply arriving at all, `flushData` consumes the stale
buffer as its completion reply and reports success. -/
theorem C4_stale_drain_cex :
    (⟨true, [stalePrintComplete], initialStatus⟩ : CatPrinter).notifications ≠ []
    ∧ (flushData ⟨true, [stalePrintComplete], initialStatus⟩ none).result = .ok ()
    ∧ (flushData ⟨true, [stalePrintComplete], initialStatus⟩ none).st.notifications
        = [] := by
  refine ⟨by decide, by decide, by decide⟩

/-- Claim C4 (amended): the status query discards (at most) one stale
buffered notification before sending, so with a single stale notification
buffered `UpdateStatus` behaves exactly as with an empty mailbox; the print
request likewise discards at most one stale notification still buffered when
it is about to be sent, so `TestPrintCard` with three buffered stale
notifications behaves exactly as with two (the status exchange consumes the
first two, the print-request drain discards the third, which is never taken
as the print reply); the flush exchange performs no drain at all, so a
buffered stale notification is taken as its completion reply (accepted when
it looks like a print-complete frame, rejected as unexpected otherwise). -/
theorem C4_stale_drain_amended (st : CatPrinter) (hc : st.connected = true) :
    (∀ stale arriving,
      UpdateStatus { st with notifications := [stale] } arriving
        = UpdateStatus { st with notifications := [] } arriving)
    ∧ (∀ s1 s2 s3 (env : PrintEnv),
        TestPrintCard { st with notifications := [s1, s2, s3] } env
          = TestPrintCard { st with notifications := [s1, s2] } env)
    ∧ (∀ stale rest arriving, st.notifications = stale :: rest →
        3 ≤ stale.length → stale.getD 2 0 = 0xAA →
        (flushData st arriving).result = .ok ())
    ∧ (∀ stale rest arriving, st.notifications = stale :: rest →
        ¬(3 ≤ stale.length ∧ stale.getD 2 0 = 0xAA) →
        (flushData st arriving).result = .error (.unexpectedFlushResponse stale)) := by
  have hcc : ¬ (st.connected = false) := by
    rw [hc]
    simp
  refine ⟨?_, ?_, ?_, ?_⟩
  · intro stale arriving
    unfold UpdateStatus
    simp only [hc]
    rfl
  · intro s1 s2 s3 env
    exact TestPrintCard_drains_one st hc s1 s2 s3 env
  · intro stale rest arriving hmem h3 haa
    unfold flushData
    rw [if_neg hcc]
    unfold recvTimeout
    rw [hmem]
    simp only
    rw [if_pos ⟨h3, haa⟩]
  · intro stale rest arriving hmem hbad
    unfold flushData
    rw [if_neg hcc]
    unfold recvTimeout
    rw [hmem]
    simp only
    rw [if_neg hbad]

/-- Witness for C4 (amended) at concrete sessions with one buffered stale
print-complete notification. -/
theorem C4_stale_drain_amended_witness :
    connectedSession.connected = true
    ∧ UpdateStatus { connectedSession with notifications := [stalePrintComplete] } none
        = UpdateStatus { connectedSession with notifications := [] } none
    ∧ TestPrintCard { connectedSession with
          notifications := [stalePrintComplete, exampleStatusReply, stalePrintComplete] }
          ⟨none, none, none⟩
        = TestPrintCard { connectedSession with
            notifications := [stalePrintComplete, exampleStatusReply] } ⟨none, none, none⟩
    ∧ (⟨true, [stalePrintComplete], initialStatus⟩ : CatPrinter).notifications
        = stalePrintComplete :: []
    ∧ 3 ≤ stalePrintComplete.length
    ∧ stalePrintComplete.getD 2 0 = 0xAA
    ∧ (flushData ⟨true, [stalePrintComplete], initialStatus⟩ none).result = .ok () := by
  obtain ⟨h1, h2, h3, h4⟩ := C4_stale_drain_amended
    (⟨true, [stalePrintComplete], initialStatus⟩ : CatPrinter) (by decide)
  exact ⟨by decide,
    (C4_stale_drain_amended connectedSession (by decide)).1 stalePrintComplete none,
    (C4_stale_drain_amended connectedSession (by decide)).2.1 stalePrintComplete
      exampleStatusReply stalePrintComplete ⟨none, none, none⟩,
    by decide, by decide, by decide,
    h3 stalePrintComplete [] none (by decide) (by decide) (by decide)⟩

def errorSession : CatPrinter :=
  ⟨true, [], { initialStatus with ErrorFlag := 2, ErrorCode := 7 }⟩

/-- Counterexample to C5 as stated: on a session whose last status has error
flag 2 and error code 7, print fails carrying the error FLAG (2), not the
stored error code (7), and it has already sent two packets (status query and
set-intensity) before failing. -/
theorem C5_print_gating_cex :
    errorSession.lastStatus.ErrorFlag = 2
    ∧ errorSession.lastStatus.ErrorCode = 7
    ∧ (TestPrintCard errorSession ⟨none, none, none⟩).result = .error (.printerError 2)
    ∧ (TestPrintCard errorSession ⟨none, none, none⟩).result ≠ .error (.printerError 7)
    ∧ (TestPrintCard errorSession ⟨none, none, none⟩).sent
        = [Effect.controlWrite statusPacket, Effect.controlWrite (intensityPacket 93)] := by
  refine ⟨by decide, by decide, by decide, by decide, by decide⟩

/-- Claim C5 (amended): `print` first refreshes the status (sending a status
query) and sets the intensity (sending a set-intensity packet); then, if the
refreshed error flag is nonzero it fails with an error carrying the error
flag value (not the error code), and otherwise, if the refreshed state is not
standby, it fails with the printer-busy error; in either failure case the
only packets sent are the status query and the set-intensity command — no
print-request packet and no data. -/
theorem C5_print_gating_amended (st : CatPrinter) (env : PrintEnv)
    (hc : st.connected = true) (hm : st.notifications = []) :
    ((UpdateStatus st env.statusArriving).st.lastStatus.ErrorFlag ≠ 0 →
      (TestPrintCard st env).result
        = .error (.printerError (UpdateStatus st env.statusArriving).st.lastStatus.ErrorFlag)
      ∧ (TestPrintCard st env).sent
        = [.controlWrite statusPacket, .controlWrite (intensityPacket 93)])
    ∧ ((UpdateStatus st env.statusArriving).st.lastStatus.ErrorFlag = 0 →
      (UpdateStatus st env.statusArriving).st.lastStatus.Status ≠ 0 →
      (TestPrintCard st env).result = .error .printerBusy
      ∧ (TestPrintCard st env).sent
        = [.controlWrite statusPacket, .controlWrite (intensityPacket 93)]) := by
  obtain ⟨hsent, hconn, hnot⟩ := UpdateStatus_invariants st env.statusArriving hc hm
  have hsi : setIntensity (UpdateStatus st env.statusArriving).st 93
      = ⟨.ok (), (UpdateStatus st env.statusArriving).st,
          [.controlWrite (intensityPacket 93)]⟩ := by
    unfold setIntensity
    rw [if_neg (by rw [hconn]; simp), if_neg (by norm_num)]
    rfl
  constructor
  · intro hflag
    unfold TestPrintCard
    dsimp only
    rw [hsi]
    dsimp only
    rw [drainOne_empty _ hnot]
    rw [if_pos hflag]
    exact ⟨rfl, by rw [hsent]; rfl⟩
  · intro hflag hstat
    unfold TestPrintCard
    dsimp only
    rw [hsi]
    dsimp only
    rw [drainOne_empty _ hnot]
    rw [if_neg (by rw [hflag]; simp), if_pos hstat]
    exact ⟨rfl, by rw [hsent]; rfl⟩

/-- Witness for C5 (amended) at a concrete session with error flag 2. -/
theorem C5_print_gating_amended_witness :
    errorSession.connected = true
    ∧ errorSession.notifications = []
    ∧ (UpdateStatus errorSession none).st.lastStatus.ErrorFlag ≠ 0
    ∧ (TestPrintCard errorSession ⟨none, none, none⟩).result
        = .error (.printerError (UpdateStatus errorSession none).st.lastStatus.ErrorFlag)
    ∧ (TestPrintCard errorSession ⟨none, none, none⟩).sent
        = [.controlWrite statusPacket, .controlWrite (intensityPacket 93)] := by
  obtain ⟨hA, hB⟩ := C5_print_gating_amended errorSession ⟨none, none, none⟩
    (by decide) (by decide)
  obtain ⟨r1, r2⟩ := hA (by decide)
  exact ⟨by decide, by decide, by decide, r1, r2⟩


end CatPrinterProof
